import Mathlib

/-
Verification of the register-file and type-matching contract of the snarkVM
synthesizer stack (src/synthesizer/src/process/stack/traits.rs).

The source file declares the trait families StackMatches, StackProgram,
RegistersCaller(-Circuit), RegistersLoad(-Circuit) and RegistersStore(-Circuit),
together with the default implementations of the narrowing wrappers
load_literal, load_plaintext, load_literal_circuit, load_plaintext_circuit,
store_literal and store_literal_circuit.  Those default methods are embedded
here over an abstract implementation of the required primitives (load,
load_circuit, store, store_circuit), exactly as the trait defines them for an
arbitrary Self.  The primitives themselves, and the data model they act on --
values, registers, operands, the per-frame register file and the identity
registers -- are not part of the source file (only their declarations and
documented contracts are), so they are modelled from the specification.
-/

set_option autoImplicit false

namespace SnarkVM

/-- Error taxonomy.  Modelled from the spec (section 7): NotFound,
TypeMismatch, IllegalAssignment, IllegalAccess, NarrowingFailure; the
narrowing failures keep the two source messages apart, and the identity
getters fail with the spec's no-caller-bound error. -/
inductive Err where
  | notFound
  | typeMismatch
  | illegalAssignment
  | illegalAccess
  | operandMustBeLiteral
  | operandMustBePlaintext
  | noCallerBound
  deriving DecidableEq, Repr

/-- Literal kinds.  Modelled from the spec: a Literal is a tagged scalar, one
of a fixed set of primitive kinds (a representative fixed set is used). -/
inductive LiteralType where
  | booleanType
  | fieldType
  | u64Type
  | addressType
  deriving DecidableEq, Repr

/-- Modelled from the spec: a Literal is a tagged scalar. -/
inductive Literal where
  | boolean : Bool → Literal
  | field : Nat → Literal
  | u64 : Nat → Literal
  | address : Nat → Literal
  deriving DecidableEq, Repr

/-- Modelled from the spec: Plaintext = Literal | Struct (ordered name-to-
plaintext fields). -/
inductive Plaintext where
  | literal : Literal → Plaintext
  | struct : List (String × Plaintext) → Plaintext

/-- Modelled from the spec: each record field carries a visibility tag
(public/private) alongside its plaintext content. -/
inductive Entry where
  | publicEntry : Plaintext → Entry
  | privateEntry : Plaintext → Entry

/-- Modelled from the spec: Value = Plaintext | Record (owner address plus
fields with visibility). -/
inductive Value where
  | plaintext : Plaintext → Value
  | record : Nat → List (String × Entry) → Value

/-- Modelled from the spec: a Register is a frame-local locator index,
optionally followed by a dotted member path into a struct/record. -/
inductive Register where
  | locator : Nat → Register
  | access : Nat → List String → Register
  deriving DecidableEq, Repr

/-- Modelled from the spec: an Operand is a register reference (with optional
member path) or an inline literal. -/
inductive Operand where
  | literal : Literal → Operand
  | register : Register → Operand
  deriving DecidableEq, Repr

/-- Modelled from the spec: PlaintextType is a declared type descriptor, a
literal kind or a named struct type. -/
inductive PlaintextType where
  | literalType : LiteralType → PlaintextType
  | structType : String → PlaintextType
  deriving DecidableEq, Repr

/-- Modelled from the spec: RegisterType is a declared type descriptor for a
register (plaintext, local record by name, or external record by locator). -/
inductive RegisterType where
  | plaintextReg : PlaintextType → RegisterType
  | recordReg : String → RegisterType
  | externalRecordReg : String → String → RegisterType
  deriving DecidableEq, Repr

/-- Circuit-wired literal.  Modelled from the spec: circuit values carry
wiring into a constraint system alongside the value they represent. -/
structure CLiteral where
  lit : Literal
  wires : List Nat
  deriving DecidableEq, Repr

/-- Circuit-wired plaintext, structurally parallel to `Plaintext`.
Modelled from the spec: circuit variants are structurally identical over
circuit-typed values. -/
inductive CPlaintext where
  | literal : CLiteral → CPlaintext
  | struct : List (String × CPlaintext) → CPlaintext

/-- Circuit-wired record entry, structurally parallel to `Entry`. -/
inductive CEntry where
  | publicEntry : CPlaintext → CEntry
  | privateEntry : CPlaintext → CEntry

/-- Circuit-wired value, structurally parallel to `Value`. -/
inductive CValue where
  | plaintext : CPlaintext → CValue
  | record : Nat → List (String × CEntry) → CValue

/-- Circuit-wired address, used by the circuit identity registers. -/
structure CAddress where
  addr : Nat
  wires : List Nat
  deriving DecidableEq, Repr

/-- Circuit-wired field element, used by the circuit identity registers. -/
structure CField where
  val : Nat
  wires : List Nat
  deriving DecidableEq, Repr

/-- Modelled from the spec: a Program is a collection of declarations; only
its identity is needed by the claims under verification. -/
structure Program where
  name : String
  deriving DecidableEq, Repr

/-- First value bound to the given key in an ordered association list. -/
def lookupKey {α : Type} : List (String × α) → String → Option α
  | [], _ => none
  | (k, v) :: rest, id => if k = id then some v else lookupKey rest id

/-- Modelled from the spec: the stack seen by register operations, combining
the TypeMatcher capability (StackMatches, one shape check per mode: the
circuit mode performs its shape comparison witness-free rather than
delegating to the plain matcher) and the ProgramContext registry of imported
external programs (StackProgram). -/
structure Stack where
  matchesRegisterType : Value → RegisterType → Except Err Unit
  matchesRegisterTypeCircuit : CValue → RegisterType → Except Err Unit
  externalPrograms : List (String × Program)

/-- Modelled from the spec: resolve an external program by ProgramID; fails
NotFound if the ProgramID was never registered as an import. -/
def Stack.getExternalProgram (stack : Stack) (pid : String) : Except Err Program :=
  match lookupKey stack.externalPrograms pid with
  | some p => .ok p
  | none => .error .notFound

/-- Underlying plaintext content of a record entry, its visibility tag
stripped. -/
def Entry.plaintextOf : Entry → Plaintext
  | .publicEntry p => p
  | .privateEntry p => p

/-- Immediate member of a plaintext: a literal has no members, a struct is
looked up by field name. -/
def Plaintext.getMember : Plaintext → String → Option Plaintext
  | .literal _, _ => none
  | .struct fields, id => lookupKey fields id

/-- Modelled from the spec: projection of a member path into a plaintext,
failing if a path component does not exist or the base is not a composite. -/
def Plaintext.project : Plaintext → List String → Except Err Plaintext
  | p, [] => .ok p
  | p, id :: rest =>
    match p.getMember id with
    | some q => q.project rest
    | none => .error .notFound

/-- Modelled from the spec: projection of a member path into a stored value;
the first component of a record path selects an entry (whose visibility is
stripped), after which projection continues through plaintexts. -/
def Value.project : Value → List String → Except Err Value
  | v, [] => .ok v
  | .plaintext p, id :: rest => (p.project (id :: rest)).map Value.plaintext
  | .record _ fields, id :: rest =>
    match lookupKey fields id with
    | some e => (e.plaintextOf.project rest).map Value.plaintext
    | none => .error .notFound

/-- Modelled from the spec: the plain register file of one frame.  Registers
with locator below numInputs are the frame's input registers; contents holds
Unassigned (none) or Assigned (some value) per locator. -/
structure RegisterFile where
  numInputs : Nat
  registerTypes : List RegisterType
  contents : List (Option Value)

/-- Modelled from the spec: RegistersStore.store.  Fails if the register
denotes a member-path lvalue, if it is an input register, or if it is already
Assigned; otherwise validates the value against the register's declared type
via the stack's TypeMatcher and transitions the register to Assigned,
recording the value.  The register file is returned unchanged on every
failure path. -/
def RegisterFile.store (regs : RegisterFile) (stack : Stack) (register : Register)
    (stack_value : Value) : Except Err Unit × RegisterFile :=
  match register with
  | .access _ _ => (.error .illegalAssignment, regs)
  | .locator i =>
    if i < regs.numInputs then (.error .illegalAssignment, regs)
    else
      match regs.contents[i]? with
      | none => (.error .notFound, regs)
      | some (some _) => (.error .illegalAssignment, regs)
      | some none =>
        match regs.registerTypes[i]? with
        | none => (.error .notFound, regs)
        | some ty =>
          match stack.matchesRegisterType stack_value ty with
          | .error e => (.error e, regs)
          | .ok _ => (.ok (), { regs with contents := regs.contents.set i (some stack_value) })

/-- Modelled from the spec: RegistersLoad.load.  A literal operand returns
the literal wrapped as a value; a register operand fails if the locator is
not found or the base register is Unassigned, and resolves any member path by
projection into the stored value.  No mutation occurs (the frame is taken
immutably). -/
def RegisterFile.load (regs : RegisterFile) (stack : Stack) (operand : Operand) :
    Except Err Value :=
  match operand with
  | .literal l => .ok (.plaintext (.literal l))
  | .register (.locator i) =>
    match regs.contents[i]? with
    | none => .error .notFound
    | some none => .error .illegalAccess
    | some (some v) => .ok v
  | .register (.access i path) =>
    match regs.contents[i]? with
    | none => .error .notFound
    | some none => .error .illegalAccess
    | some (some v) => v.project path

/-- Modelled from the spec: the circuit register file of one frame,
structurally identical to the plain one over circuit-typed values. -/
structure CRegisterFile where
  numInputs : Nat
  registerTypes : List RegisterType
  contents : List (Option CValue)

/-- Modelled from the spec: RegistersStoreCircuit.store_circuit, the same
state machine as the plain store over circuit values, with the shape check
performed witness-free by the circuit-mode matcher. -/
def CRegisterFile.store_circuit (regs : CRegisterFile) (stack : Stack) (register : Register)
    (stack_value : CValue) : Except Err Unit × CRegisterFile :=
  match register with
  | .access _ _ => (.error .illegalAssignment, regs)
  | .locator i =>
    if i < regs.numInputs then (.error .illegalAssignment, regs)
    else
      match regs.contents[i]? with
      | none => (.error .notFound, regs)
      | some (some _) => (.error .illegalAssignment, regs)
      | some none =>
        match regs.registerTypes[i]? with
        | none => (.error .notFound, regs)
        | some ty =>
          match stack.matchesRegisterTypeCircuit stack_value ty with
          | .error e => (.error e, regs)
          | .ok _ => (.ok (), { regs with contents := regs.contents.set i (some stack_value) })

/-- Modelled from the spec: the identity registers of one frame, holding the
transition caller address and transition view key in plain and circuit form,
each initially unset. -/
structure IdentityRegisters where
  caller? : Option Nat
  tvk? : Option Nat
  callerCircuit? : Option CAddress
  tvkCircuit? : Option CField
  deriving DecidableEq, Repr

/-- A fresh frame: no identity has been set yet. -/
def IdentityRegisters.init : IdentityRegisters := ⟨none, none, none, none⟩

/-- Modelled from the spec: RegistersCaller.caller, failing if the frame has
not yet had its caller set. -/
def IdentityRegisters.caller (regs : IdentityRegisters) : Except Err Nat :=
  match regs.caller? with
  | some a => .ok a
  | none => .error .noCallerBound

/-- Modelled from the spec: RegistersCaller.set_caller; never fails and
unconditionally overwrites. -/
def IdentityRegisters.set_caller (regs : IdentityRegisters) (caller : Nat) : IdentityRegisters :=
  { regs with caller? := some caller }

/-- Modelled from the spec: RegistersCaller.tvk, failing if the frame has not
yet had its transition view key set. -/
def IdentityRegisters.tvk (regs : IdentityRegisters) : Except Err Nat :=
  match regs.tvk? with
  | some t => .ok t
  | none => .error .noCallerBound

/-- Modelled from the spec: RegistersCaller.set_tvk; never fails and
unconditionally overwrites. -/
def IdentityRegisters.set_tvk (regs : IdentityRegisters) (tvk : Nat) : IdentityRegisters :=
  { regs with tvk? := some tvk }

/-- Modelled from the spec: RegistersCallerCircuit.caller_circuit. -/
def IdentityRegisters.caller_circuit (regs : IdentityRegisters) : Except Err CAddress :=
  match regs.callerCircuit? with
  | some a => .ok a
  | none => .error .noCallerBound

/-- Modelled from the spec: RegistersCallerCircuit.set_caller_circuit; never
fails and unconditionally overwrites. -/
def IdentityRegisters.set_caller_circuit (regs : IdentityRegisters) (caller : CAddress) :
    IdentityRegisters :=
  { regs with callerCircuit? := some caller }

/-- Modelled from the spec: RegistersCallerCircuit.tvk_circuit. -/
def IdentityRegisters.tvk_circuit (regs : IdentityRegisters) : Except Err CField :=
  match regs.tvkCircuit? with
  | some t => .ok t
  | none => .error .noCallerBound

/-- Modelled from the spec: RegistersCallerCircuit.set_tvk_circuit; never
fails and unconditionally overwrites. -/
def IdentityRegisters.set_tvk_circuit (regs : IdentityRegisters) (tvk : CField) :
    IdentityRegisters :=
  { regs with tvkCircuit? := some tvk }

/-- Plaintext::from on a literal: wraps the literal as a literal plaintext
(modelled from the spec: wrapping a literal into a Plaintext/Value). -/
def Plaintext.fromLiteral (l : Literal) : Plaintext := .literal l

/-- circuit::Plaintext::from on a circuit literal. -/
def CPlaintext.fromLiteral (l : CLiteral) : CPlaintext := .literal l

/-- RegistersLoad::load_literal (source, traits.rs lines 115-126): the trait's
default method over an arbitrary implementation `load` of the required
primitive, for any Self type σ.  Propagates a failing load, returns the inner
literal of a loaded literal plaintext, and fails on a struct or record. -/
def load_literal {σ : Type} (load : σ → Stack → Operand → Except Err Value)
    (self : σ) (stack : Stack) (operand : Operand) : Except Err Literal :=
  match load self stack operand with
  | .ok (Value.plaintext (Plaintext.literal l)) => .ok l
  | .ok (Value.plaintext (Plaintext.struct _)) => .error .operandMustBeLiteral
  | .ok (Value.record _ _) => .error .operandMustBeLiteral
  | .error e => .error e

/-- RegistersLoad::load_plaintext (source, traits.rs lines 134-144): the
trait's default method over an arbitrary implementation `load`. -/
def load_plaintext {σ : Type} (load : σ → Stack → Operand → Except Err Value)
    (self : σ) (stack : Stack) (operand : Operand) : Except Err Plaintext :=
  match load self stack operand with
  | .ok (Value.plaintext p) => .ok p
  | .ok (Value.record _ _) => .error .operandMustBePlaintext
  | .error e => .error e

/-- RegistersLoadCircuit::load_literal_circuit (source, traits.rs lines
165-176): the trait's default method over an arbitrary implementation
`load_circuit`. -/
def load_literal_circuit {σ : Type} (load_circuit : σ → Stack → Operand → Except Err CValue)
    (self : σ) (stack : Stack) (operand : Operand) : Except Err CLiteral :=
  match load_circuit self stack operand with
  | .ok (CValue.plaintext (CPlaintext.literal l)) => .ok l
  | .ok (CValue.plaintext (CPlaintext.struct _)) => .error .operandMustBeLiteral
  | .ok (CValue.record _ _) => .error .operandMustBeLiteral
  | .error e => .error e

/-- RegistersLoadCircuit::load_plaintext_circuit (source, traits.rs lines
184-194): the trait's default method over an arbitrary implementation
`load_circuit`. -/
def load_plaintext_circuit {σ : Type} (load_circuit : σ → Stack → Operand → Except Err CValue)
    (self : σ) (stack : Stack) (operand : Operand) : Except Err CPlaintext :=
  match load_circuit self stack operand with
  | .ok (CValue.plaintext p) => .ok p
  | .ok (CValue.record _ _) => .error .operandMustBePlaintext
  | .error e => .error e

/-- RegistersStore::store_literal (source, traits.rs lines 217-225): the
trait's default method over an arbitrary implementation `store` of the
required primitive; since store takes Self mutably, the abstract store maps a
state to a result paired with the updated state. -/
def store_literal {σ : Type} (store : σ → Stack → Register → Value → Except Err Unit × σ)
    (self : σ) (stack : Stack) (register : Register) (literal : Literal) :
    Except Err Unit × σ :=
  store self stack register (Value.plaintext (Plaintext.fromLiteral literal))

/-- RegistersStoreCircuit::store_literal_circuit (source, traits.rs lines
248-256): the trait's default method over an arbitrary implementation
`store_circuit`. -/
def store_literal_circuit {σ : Type}
    (store_circuit : σ → Stack → Register → CValue → Except Err Unit × σ)
    (self : σ) (stack : Stack) (register : Register) (literal : CLiteral) :
    Except Err Unit × σ :=
  store_circuit self stack register (CValue.plaintext (CPlaintext.fromLiteral literal))

/-- Erasure of a circuit literal to the plain literal it represents. -/
def CLiteral.erase (cl : CLiteral) : Literal := cl.lit

mutual

/-- Erasure of a circuit plaintext to the plain plaintext it represents,
forgetting the constraint-system wiring and preserving the structure. -/
def CPlaintext.erase : CPlaintext → Plaintext
  | .literal cl => .literal cl.lit
  | .struct fields => .struct (CPlaintext.eraseFields fields)

/-- Erasure of the field list of a circuit struct. -/
def CPlaintext.eraseFields : List (String × CPlaintext) → List (String × Plaintext)
  | [] => []
  | (id, p) :: rest => (id, CPlaintext.erase p) :: CPlaintext.eraseFields rest

end

/-- Erasure of a circuit record entry, preserving its visibility tag. -/
def CEntry.erase : CEntry → Entry
  | .publicEntry p => .publicEntry p.erase
  | .privateEntry p => .privateEntry p.erase

/-- Erasure of a circuit value to the plain value it represents. -/
def CValue.erase : CValue → Value
  | .plaintext p => .plaintext p.erase
  | .record owner fields => .record owner (fields.map fun pr => (pr.1, pr.2.erase))

/-- One identity-setter invocation, used to reason about which setters a
frame has seen. -/
inductive IdOp where
  | setCaller : Nat → IdOp
  | setTvk : Nat → IdOp
  | setCallerCircuit : CAddress → IdOp
  | setTvkCircuit : CField → IdOp
  deriving DecidableEq, Repr

/-- Interpretation of one setter invocation on the identity registers. -/
def IdentityRegisters.applyOp (regs : IdentityRegisters) : IdOp → IdentityRegisters
  | .setCaller a => regs.set_caller a
  | .setTvk t => regs.set_tvk t
  | .setCallerCircuit a => regs.set_caller_circuit a
  | .setTvkCircuit t => regs.set_tvk_circuit t

/-- Identity registers of a frame after a sequence of setter invocations,
starting from a fresh frame. -/
def IdentityRegisters.run (ops : List IdOp) : IdentityRegisters :=
  ops.foldl IdentityRegisters.applyOp IdentityRegisters.init

/-- A concrete stack for evaluating the theorems: both matchers accept every
value and one external program is registered. -/
def sampleStack : Stack :=
  ⟨fun _ _ => .ok (), fun _ _ => .ok (), [("credits", ⟨"credits"⟩)]⟩

/-- A concrete plain value. -/
def sampleValue : Value := .plaintext (.literal (.field 7))

/-- A concrete circuit value. -/
def sampleCValue : CValue := .plaintext (.literal ⟨.field 7, [0]⟩)

/-- A concrete frame: one input register (assigned) and one free register. -/
def sampleRegisterFile : RegisterFile :=
  ⟨1,
   [RegisterType.plaintextReg (.literalType .booleanType),
    RegisterType.plaintextReg (.literalType .fieldType)],
   [some (.plaintext (.literal (.boolean true))), none]⟩

/-- The circuit counterpart of the concrete frame. -/
def sampleCRegisterFile : CRegisterFile :=
  ⟨1,
   [RegisterType.plaintextReg (.literalType .booleanType),
    RegisterType.plaintextReg (.literalType .fieldType)],
   [some (.plaintext (.literal ⟨.boolean true, [1]⟩)), none]⟩

/-- A concrete frame whose register 0 holds a record with one field. -/
def sampleRecordRegs : RegisterFile :=
  ⟨0, [RegisterType.recordReg "token"],
   [some (.record 5 [("amount", .privateEntry (.literal (.u64 3)))])]⟩

/-- A concrete load primitive that always yields a boolean literal value. -/
def sampleLoadOk : Unit → Stack → Operand → Except Err Value :=
  fun _ _ _ => .ok (.plaintext (.literal (.boolean true)))

/-- C5: for every register r and literal l, store_literal(r, l) returns
exactly the result of store(r, Value::Plaintext(Plaintext::from(l))): it
wraps the literal into a Plaintext/Value and delegates to store, performing
no other action and no independent checks (the result and the state
transformation are those of store on the wrapped value). -/
theorem c5_store_literal_delegates :
    ∀ (σ : Type) (store : σ → Stack → Register → Value → Except Err Unit × σ)
      (self : σ) (stack : Stack) (register : Register) (l : Literal),
      store_literal store self stack register l
        = store self stack register (Value.plaintext (Plaintext.literal l)) := by
  intro σ store self stack register l
  rfl

/-- C3: load_literal(o) succeeds exactly when load(o) succeeds and yields a
Value::Plaintext wrapping a Plaintext::Literal, returning that inner literal;
load_plaintext(o) succeeds exactly when load(o) yields a Value::Plaintext of
any shape, and both wrappers fail when the loaded value is a Record. -/
theorem c3_narrowing_views :
    ∀ (σ : Type) (load : σ → Stack → Operand → Except Err Value)
      (self : σ) (stack : Stack) (operand : Operand),
      (∀ l : Literal,
        load_literal load self stack operand = .ok l
          ↔ load self stack operand = .ok (.plaintext (.literal l)))
      ∧ (∀ p : Plaintext,
        load_plaintext load self stack operand = .ok p
          ↔ load self stack operand = .ok (.plaintext p))
      ∧ (∀ (owner : Nat) (fields : List (String × Entry)),
        load self stack operand = .ok (.record owner fields)
          → load_literal load self stack operand = .error .operandMustBeLiteral
            ∧ load_plaintext load self stack operand = .error .operandMustBePlaintext) := by
  intro σ load self stack operand
  refine ⟨fun l => ?_, fun p => ?_, fun owner fields h => ?_⟩
  · cases h : load self stack operand with
    | error e => simp [load_literal, h]
    | ok v =>
      cases v with
      | plaintext p =>
        cases p with
        | literal l2 => simp [load_literal, h]
        | struct fields => simp [load_literal, h]
      | record owner fields => simp [load_literal, h]
  · cases h : load self stack operand with
    | error e => simp [load_plaintext, h]
    | ok v =>
      cases v with
      | plaintext q => simp [load_plaintext, h]
      | record owner fields => simp [load_plaintext, h]
  · exact ⟨by simp [load_literal, h], by simp [load_plaintext, h]⟩

/-- C3 witness: on a concrete frame the wrapper and the primitive agree. -/
theorem c3_narrowing_views_witness :
    load_literal sampleLoadOk () sampleStack (.literal (.boolean true)) = .ok (.boolean true) := by
  have h := (c3_narrowing_views Unit sampleLoadOk () sampleStack
    (.literal (.boolean true))).1 (.boolean true)
  exact h.mpr rfl

/-- C10: narrowing to a literal is strictly narrower than narrowing to a
plaintext: whenever load_literal succeeds with literal l, load_plaintext on
the same operand in the same state succeeds with the literal plaintext
wrapping l, and likewise for the circuit pair. -/
theorem c10_literal_narrower_than_plaintext :
    (∀ (σ : Type) (load : σ → Stack → Operand → Except Err Value)
       (self : σ) (stack : Stack) (operand : Operand) (l : Literal),
      load_literal load self stack operand = .ok l
        → load_plaintext load self stack operand = .ok (.literal l))
    ∧ (∀ (σ : Type) (load_circuit : σ → Stack → Operand → Except Err CValue)
       (self : σ) (stack : Stack) (operand : Operand) (l : CLiteral),
      load_literal_circuit load_circuit self stack operand = .ok l
        → load_plaintext_circuit load_circuit self stack operand = .ok (.literal l)) := by
  constructor
  · intro σ load self stack operand l h
    cases hl : load self stack operand with
    | error e => simp [load_literal, hl] at h
    | ok v =>
      cases v with
      | plaintext p =>
        cases p with
        | literal l2 =>
          simp [load_literal, hl] at h
          simp [load_plaintext, hl, h]
        | struct fields => simp [load_literal, hl] at h
      | record owner fields => simp [load_literal, hl] at h
  · intro σ load_circuit self stack operand l h
    cases hl : load_circuit self stack operand with
    | error e => simp [load_literal_circuit, hl] at h
    | ok v =>
      cases v with
      | plaintext p =>
        cases p with
        | literal l2 =>
          simp [load_literal_circuit, hl] at h
          simp [load_plaintext_circuit, hl, h]
        | struct fields => simp [load_literal_circuit, hl] at h
      | record owner fields => simp [load_literal_circuit, hl] at h

/-- C10 witness: a successful concrete literal load narrows to a plaintext
load of the same literal. -/
theorem c10_literal_narrower_than_plaintext_witness :
    load_plaintext sampleLoadOk () sampleStack (.literal (.boolean true))
      = .ok (.literal (.boolean true)) :=
  c10_literal_narrower_than_plaintext.1 Unit sampleLoadOk () sampleStack
    (.literal (.boolean true)) (.boolean true) rfl

/-- C4: the circuit-mode narrowing wrappers implement the same algorithm as
their plain counterparts.  Erasing the constraint-system wiring commutes the
circuit wrappers into the plain wrappers applied to the erased primitive
(same case analysis, same error on struct-where-literal-required and on
Record, same propagation of a failing load), and store_literal_circuit
delegates to store_circuit with the wrapped literal exactly as store_literal
delegates to store. -/
theorem c4_circuit_wrappers_mirror_plain :
    (∀ (σ : Type) (load_circuit : σ → Stack → Operand → Except Err CValue)
       (self : σ) (stack : Stack) (operand : Operand),
      (load_literal_circuit load_circuit self stack operand).map CLiteral.erase
        = load_literal (fun s st op => (load_circuit s st op).map CValue.erase)
            self stack operand)
    ∧ (∀ (σ : Type) (load_circuit : σ → Stack → Operand → Except Err CValue)
       (self : σ) (stack : Stack) (operand : Operand),
      (load_plaintext_circuit load_circuit self stack operand).map CPlaintext.erase
        = load_plaintext (fun s st op => (load_circuit s st op).map CValue.erase)
            self stack operand)
    ∧ (∀ (σ : Type) (store_circuit : σ → Stack → Register → CValue → Except Err Unit × σ)
       (self : σ) (stack : Stack) (register : Register) (l : CLiteral),
      store_literal_circuit store_circuit self stack register l
        = store_circuit self stack register (CValue.plaintext (CPlaintext.literal l))) := by
  refine ⟨?_, ?_, ?_⟩
  · intro σ load_circuit self stack operand
    cases h : load_circuit self stack operand with
    | error e => simp [load_literal_circuit, load_literal, h, Except.map]
    | ok v =>
      cases v with
      | plaintext p =>
        cases p with
        | literal l =>
          simp [load_literal_circuit, load_literal, h, Except.map, CValue.erase,
            CPlaintext.erase, CLiteral.erase]
        | struct fields =>
          simp [load_literal_circuit, load_literal, h, Except.map, CValue.erase,
            CPlaintext.erase]
      | record owner fields =>
        simp [load_literal_circuit, load_literal, h, Except.map, CValue.erase]
  · intro σ load_circuit self stack operand
    cases h : load_circuit self stack operand with
    | error e => simp [load_plaintext_circuit, load_plaintext, h, Except.map]
    | ok v =>
      cases v with
      | plaintext p =>
        simp [load_plaintext_circuit, load_plaintext, h, Except.map, CValue.erase]
      | record owner fields =>
        simp [load_plaintext_circuit, load_plaintext, h, Except.map, CValue.erase]
  · intro σ store_circuit self stack register l
    rfl

/-- Lookup in an association list misses exactly when the key is absent from
the key column. -/
theorem lookupKey_eq_none_iff {α : Type} (l : List (String × α)) (k : String) :
    lookupKey l k = none ↔ k ∉ l.map Prod.fst := by
  induction l with
  | nil => simp [lookupKey]
  | cons kv rest ih =>
    obtain ⟨a, b⟩ := kv
    by_cases h : a = k
    · subst h
      simp [lookupKey]
    · simp [lookupKey, h, ih, Ne.symm h]

/-- C9: get_external_program(pid) fails with NotFound exactly when pid was
never registered as an import, and otherwise returns the registered program.
The lookup is embedded as a pure function of the stack and the ProgramID
(the source takes the stack by shared reference), so it has no side effects
and repeated calls return definitionally identical results. -/
theorem c9_get_external_program_lookup :
    ∀ (stack : Stack) (pid : String),
      (stack.getExternalProgram pid = .error .notFound
        ↔ pid ∉ stack.externalPrograms.map Prod.fst)
      ∧ (∀ p : Program, lookupKey stack.externalPrograms pid = some p
          → stack.getExternalProgram pid = .ok p) := by
  intro stack pid
  constructor
  · rw [← lookupKey_eq_none_iff]
    cases h : lookupKey stack.externalPrograms pid <;> simp [Stack.getExternalProgram, h]
  · intro p hp
    simp [Stack.getExternalProgram, hp]

/-- C9 witness: the registered program is returned on a concrete stack. -/
theorem c9_get_external_program_lookup_witness :
    sampleStack.getExternalProgram "credits" = .ok ⟨"credits"⟩ :=
  (c9_get_external_program_lookup sampleStack "credits").2 ⟨"credits"⟩ rfl

/-- After a sequence of identity-setter invocations, the caller is unset
exactly when it was unset before and no set_caller occurred. -/
theorem foldl_caller_none (ops : List IdOp) :
    ∀ regs : IdentityRegisters,
      (ops.foldl IdentityRegisters.applyOp regs).caller? = none
        ↔ regs.caller? = none ∧ ∀ a : Nat, IdOp.setCaller a ∉ ops := by
  induction ops with
  | nil => intro regs; simp
  | cons op rest ih =>
    intro regs
    rw [List.foldl_cons]
    cases op with
    | setCaller a =>
      constructor
      · intro h
        rw [ih] at h
        simp [IdentityRegisters.applyOp, IdentityRegisters.set_caller] at h
      · intro h
        exact absurd (List.mem_cons_self _ _) (h.2 a)
    | setTvk t =>
      rw [ih]
      simp [IdentityRegisters.applyOp, IdentityRegisters.set_tvk]
    | setCallerCircuit a =>
      rw [ih]
      simp [IdentityRegisters.applyOp, IdentityRegisters.set_caller_circuit]
    | setTvkCircuit t =>
      rw [ih]
      simp [IdentityRegisters.applyOp, IdentityRegisters.set_tvk_circuit]

/-- After a sequence of identity-setter invocations, the transition view key
is unset exactly when it was unset before and no set_tvk occurred. -/
theorem foldl_tvk_none (ops : List IdOp) :
    ∀ regs : IdentityRegisters,
      (ops.foldl IdentityRegisters.applyOp regs).tvk? = none
        ↔ regs.tvk? = none ∧ ∀ t : Nat, IdOp.setTvk t ∉ ops := by
  induction ops with
  | nil => intro regs; simp
  | cons op rest ih =>
    intro regs
    rw [List.foldl_cons]
    cases op with
    | setTvk t =>
      constructor
      · intro h
        rw [ih] at h
        simp [IdentityRegisters.applyOp, IdentityRegisters.set_tvk] at h
      · intro h
        exact absurd (List.mem_cons_self _ _) (h.2 t)
    | setCaller a =>
      rw [ih]
      simp [IdentityRegisters.applyOp, IdentityRegisters.set_caller]
    | setCallerCircuit a =>
      rw [ih]
      simp [IdentityRegisters.applyOp, IdentityRegisters.set_caller_circuit]
    | setTvkCircuit t =>
      rw [ih]
      simp [IdentityRegisters.applyOp, IdentityRegisters.set_tvk_circuit]

/-- After a sequence of identity-setter invocations, the circuit caller is
unset exactly when it was unset before and no set_caller_circuit occurred. -/
theorem foldl_caller_circuit_none (ops : List IdOp) :
    ∀ regs : IdentityRegisters,
      (ops.foldl IdentityRegisters.applyOp regs).callerCircuit? = none
        ↔ regs.callerCircuit? = none ∧ ∀ a : CAddress, IdOp.setCallerCircuit a ∉ ops := by
  induction ops with
  | nil => intro regs; simp
  | cons op rest ih =>
    intro regs
    rw [List.foldl_cons]
    cases op with
    | setCallerCircuit a =>
      constructor
      · intro h
        rw [ih] at h
        simp [IdentityRegisters.applyOp, IdentityRegisters.set_caller_circuit] at h
      · intro h
        exact absurd (List.mem_cons_self _ _) (h.2 a)
    | setCaller a =>
      rw [ih]
      simp [IdentityRegisters.applyOp, IdentityRegisters.set_caller]
    | setTvk t =>
      rw [ih]
      simp [IdentityRegisters.applyOp, IdentityRegisters.set_tvk]
    | setTvkCircuit t =>
      rw [ih]
      simp [IdentityRegisters.applyOp, IdentityRegisters.set_tvk_circuit]

/-- After a sequence of identity-setter invocations, the circuit transition
view key is unset exactly when it was unset before and no set_tvk_circuit
occurred. -/
theorem foldl_tvk_circuit_none (ops : List IdOp) :
    ∀ regs : IdentityRegisters,
      (ops.foldl IdentityRegisters.applyOp regs).tvkCircuit? = none
        ↔ regs.tvkCircuit? = none ∧ ∀ t : CField, IdOp.setTvkCircuit t ∉ ops := by
  induction ops with
  | nil => intro regs; simp
  | cons op rest ih =>
    intro regs
    rw [List.foldl_cons]
    cases op with
    | setTvkCircuit t =>
      constructor
      · intro h
        rw [ih] at h
        simp [IdentityRegisters.applyOp, IdentityRegisters.set_tvk_circuit] at h
      · intro h
        exact absurd (List.mem_cons_self _ _) (h.2 t)
    | setCaller a =>
      rw [ih]
      simp [IdentityRegisters.applyOp, IdentityRegisters.set_caller]
    | setTvk t =>
      rw [ih]
      simp [IdentityRegisters.applyOp, IdentityRegisters.set_tvk]
    | setCallerCircuit a =>
      rw [ih]
      simp [IdentityRegisters.applyOp, IdentityRegisters.set_caller_circuit]

/-- C8: for every frame, in both plain and circuit form, the identity getters
fail (with the no-caller-bound error) exactly when the corresponding setter
has not yet been called on the frame since it was created, and the setters
never fail (they are total) and unconditionally overwrite any previously set
value, so that after set_caller(a) the getter caller() returns a — for every
prior state of the frame, set or unset. -/
theorem c8_identity_registers :
    (∀ ops : List IdOp,
      (IdentityRegisters.run ops).caller = .error .noCallerBound
        ↔ ∀ a : Nat, IdOp.setCaller a ∉ ops)
    ∧ (∀ ops : List IdOp,
      (IdentityRegisters.run ops).tvk = .error .noCallerBound
        ↔ ∀ t : Nat, IdOp.setTvk t ∉ ops)
    ∧ (∀ ops : List IdOp,
      (IdentityRegisters.run ops).caller_circuit = .error .noCallerBound
        ↔ ∀ a : CAddress, IdOp.setCallerCircuit a ∉ ops)
    ∧ (∀ ops : List IdOp,
      (IdentityRegisters.run ops).tvk_circuit = .error .noCallerBound
        ↔ ∀ t : CField, IdOp.setTvkCircuit t ∉ ops)
    ∧ (∀ (regs : IdentityRegisters) (a : Nat), (regs.set_caller a).caller = .ok a)
    ∧ (∀ (regs : IdentityRegisters) (t : Nat), (regs.set_tvk t).tvk = .ok t)
    ∧ (∀ (regs : IdentityRegisters) (a : CAddress),
        (regs.set_caller_circuit a).caller_circuit = .ok a)
    ∧ (∀ (regs : IdentityRegisters) (t : CField),
        (regs.set_tvk_circuit t).tvk_circuit = .ok t) := by
  refine ⟨?_, ?_, ?_, ?_, fun regs a => rfl, fun regs t => rfl, fun regs a => rfl,
    fun regs t => rfl⟩
  · intro ops
    have hbridge : ∀ regs : IdentityRegisters,
        regs.caller = .error .noCallerBound ↔ regs.caller? = none := by
      intro regs
      cases h : regs.caller? <;> simp [IdentityRegisters.caller, h]
    rw [hbridge, IdentityRegisters.run, foldl_caller_none]
    simp [IdentityRegisters.init]
  · intro ops
    have hbridge : ∀ regs : IdentityRegisters,
        regs.tvk = .error .noCallerBound ↔ regs.tvk? = none := by
      intro regs
      cases h : regs.tvk? <;> simp [IdentityRegisters.tvk, h]
    rw [hbridge, IdentityRegisters.run, foldl_tvk_none]
    simp [IdentityRegisters.init]
  · intro ops
    have hbridge : ∀ regs : IdentityRegisters,
        regs.caller_circuit = .error .noCallerBound ↔ regs.callerCircuit? = none := by
      intro regs
      cases h : regs.callerCircuit? <;> simp [IdentityRegisters.caller_circuit, h]
    rw [hbridge, IdentityRegisters.run, foldl_caller_circuit_none]
    simp [IdentityRegisters.init]
  · intro ops
    have hbridge : ∀ regs : IdentityRegisters,
        regs.tvk_circuit = .error .noCallerBound ↔ regs.tvkCircuit? = none := by
      intro regs
      cases h : regs.tvkCircuit? <;> simp [IdentityRegisters.tvk_circuit, h]
    rw [hbridge, IdentityRegisters.run, foldl_tvk_circuit_none]
    simp [IdentityRegisters.init]

/-- Inversion of a successful plain store: the register was a plain locator
outside the inputs, previously Unassigned, its declared type exists and
accepted the value, and the only change is that register becoming Assigned
with the stored value. -/
theorem store_ok_inv (regs : RegisterFile) (stack : Stack) (r : Register) (v : Value)
    (out : RegisterFile) (h : regs.store stack r v = (.ok (), out)) :
    ∃ i ty, r = .locator i ∧ regs.numInputs ≤ i ∧ regs.contents[i]? = some none
      ∧ regs.registerTypes[i]? = some ty ∧ stack.matchesRegisterType v ty = .ok ()
      ∧ out = ⟨regs.numInputs, regs.registerTypes, regs.contents.set i (some v)⟩ := by
  cases r with
  | access i path => simp [RegisterFile.store] at h
  | locator i =>
    by_cases hin : i < regs.numInputs
    · simp [RegisterFile.store, hin] at h
    · cases hc : regs.contents[i]? with
      | none => simp [RegisterFile.store, hin, hc] at h
      | some o =>
        cases o with
        | some w => simp [RegisterFile.store, hin, hc] at h
        | none =>
          cases ht : regs.registerTypes[i]? with
          | none => simp [RegisterFile.store, hin, hc, ht] at h
          | some ty =>
            cases hm : stack.matchesRegisterType v ty with
            | error e => simp [RegisterFile.store, hin, hc, ht, hm] at h
            | ok u =>
              cases u
              simp [RegisterFile.store, hin, hc, ht, hm] at h
              subst h
              exact ⟨i, ty, rfl, Nat.le_of_not_lt hin, hc, ht, hm, rfl⟩

/-- Inversion of a successful circuit store, mirroring the plain one. -/
theorem store_circuit_ok_inv (regs : CRegisterFile) (stack : Stack) (r : Register)
    (v : CValue) (out : CRegisterFile) (h : regs.store_circuit stack r v = (.ok (), out)) :
    ∃ i ty, r = .locator i ∧ regs.numInputs ≤ i ∧ regs.contents[i]? = some none
      ∧ regs.registerTypes[i]? = some ty ∧ stack.matchesRegisterTypeCircuit v ty = .ok ()
      ∧ out = ⟨regs.numInputs, regs.registerTypes, regs.contents.set i (some v)⟩ := by
  cases r with
  | access i path => simp [CRegisterFile.store_circuit] at h
  | locator i =>
    by_cases hin : i < regs.numInputs
    · simp [CRegisterFile.store_circuit, hin] at h
    · cases hc : regs.contents[i]? with
      | none => simp [CRegisterFile.store_circuit, hin, hc] at h
      | some o =>
        cases o with
        | some w => simp [CRegisterFile.store_circuit, hin, hc] at h
        | none =>
          cases ht : regs.registerTypes[i]? with
          | none => simp [CRegisterFile.store_circuit, hin, hc, ht] at h
          | some ty =>
            cases hm : stack.matchesRegisterTypeCircuit v ty with
            | error e => simp [CRegisterFile.store_circuit, hin, hc, ht, hm] at h
            | ok u =>
              cases u
              simp [CRegisterFile.store_circuit, hin, hc, ht, hm] at h
              subst h
              exact ⟨i, ty, rfl, Nat.le_of_not_lt hin, hc, ht, hm, rfl⟩

/-- C1: in both the plain and the circuit register file, store fails with
IllegalAssignment on a member-path lvalue, on an input register, and on a
register that is already Assigned; a store that succeeds did validate the
value against the register's declared type via the stack's matcher and
transitioned the register to Assigned, recording the value; and after a
successful store, a second store to the same register always fails,
regardless of the value stored. -/
theorem c1_store_single_assignment :
    ∀ (regs : RegisterFile) (cregs : CRegisterFile) (stack : Stack) (v : Value) (cv : CValue),
      (∀ (i : Nat) (path : List String),
        (regs.store stack (.access i path) v).1 = .error .illegalAssignment)
      ∧ (∀ i : Nat, i < regs.numInputs →
        (regs.store stack (.locator i) v).1 = .error .illegalAssignment)
      ∧ (∀ (i : Nat) (w : Value), regs.contents[i]? = some (some w) →
        (regs.store stack (.locator i) v).1 = .error .illegalAssignment)
      ∧ (∀ (r : Register) (out : RegisterFile), regs.store stack r v = (.ok (), out) →
        ∃ i ty, r = .locator i ∧ regs.numInputs ≤ i ∧ regs.contents[i]? = some none
          ∧ regs.registerTypes[i]? = some ty ∧ stack.matchesRegisterType v ty = .ok ()
          ∧ out = ⟨regs.numInputs, regs.registerTypes, regs.contents.set i (some v)⟩)
      ∧ (∀ (r : Register) (out : RegisterFile) (stack2 : Stack) (v2 : Value),
        regs.store stack r v = (.ok (), out) →
        (out.store stack2 r v2).1 = .error .illegalAssignment)
      ∧ (∀ (i : Nat) (path : List String),
        (cregs.store_circuit stack (.access i path) cv).1 = .error .illegalAssignment)
      ∧ (∀ i : Nat, i < cregs.numInputs →
        (cregs.store_circuit stack (.locator i) cv).1 = .error .illegalAssignment)
      ∧ (∀ (i : Nat) (w : CValue), cregs.contents[i]? = some (some w) →
        (cregs.store_circuit stack (.locator i) cv).1 = .error .illegalAssignment)
      ∧ (∀ (r : Register) (out : CRegisterFile), cregs.store_circuit stack r cv = (.ok (), out) →
        ∃ i ty, r = .locator i ∧ cregs.numInputs ≤ i ∧ cregs.contents[i]? = some none
          ∧ cregs.registerTypes[i]? = some ty ∧ stack.matchesRegisterTypeCircuit cv ty = .ok ()
          ∧ out = ⟨cregs.numInputs, cregs.registerTypes, cregs.contents.set i (some cv)⟩)
      ∧ (∀ (r : Register) (out : CRegisterFile) (stack2 : Stack) (v2 : CValue),
        cregs.store_circuit stack r cv = (.ok (), out) →
        (out.store_circuit stack2 r v2).1 = .error .illegalAssignment) := by
  intro regs cregs stack v cv
  refine ⟨fun i path => rfl, ?_, ?_, fun r out h => store_ok_inv regs stack r v out h, ?_,
    fun i path => rfl, ?_, ?_, fun r out h => store_circuit_ok_inv cregs stack r cv out h, ?_⟩
  · intro i hin
    simp [RegisterFile.store, hin]
  · intro i w hc
    by_cases hin : i < regs.numInputs
    · simp [RegisterFile.store, hin]
    · simp [RegisterFile.store, hin, hc]
  · intro r out stack2 v2 h
    obtain ⟨i, ty, hr, hle, hc, ht, hm, hout⟩ := store_ok_inv regs stack r v out h
    subst hr
    subst hout
    have hlen : i < regs.contents.length := (List.getElem?_eq_some.mp hc).1
    simp [RegisterFile.store, Nat.not_lt.mpr hle, List.getElem?_set, hlen]
  · intro i hin
    simp [CRegisterFile.store_circuit, hin]
  · intro i w hc
    by_cases hin : i < cregs.numInputs
    · simp [CRegisterFile.store_circuit, hin]
    · simp [CRegisterFile.store_circuit, hin, hc]
  · intro r out stack2 v2 h
    obtain ⟨i, ty, hr, hle, hc, ht, hm, hout⟩ := store_circuit_ok_inv cregs stack r cv out h
    subst hr
    subst hout
    have hlen : i < cregs.contents.length := (List.getElem?_eq_some.mp hc).1
    simp [CRegisterFile.store_circuit, Nat.not_lt.mpr hle, List.getElem?_set, hlen]

/-- The concrete frame after storing the sample value into register 1. -/
def sampleRegisterFileAfter : RegisterFile :=
  ⟨1,
   [RegisterType.plaintextReg (.literalType .booleanType),
    RegisterType.plaintextReg (.literalType .fieldType)],
   [some (.plaintext (.literal (.boolean true))), some sampleValue]⟩

/-- The concrete circuit frame after storing the sample circuit value into
register 1. -/
def sampleCRegisterFileAfter : CRegisterFile :=
  ⟨1,
   [RegisterType.plaintextReg (.literalType .booleanType),
    RegisterType.plaintextReg (.literalType .fieldType)],
   [some (.plaintext (.literal ⟨.boolean true, [1]⟩)), some sampleCValue]⟩

/-- C1 witness: on concrete frames, a second store to the register just
assigned fails in both plain and circuit mode. -/
theorem c1_store_single_assignment_witness :
    (sampleRegisterFileAfter.store sampleStack (.locator 1) sampleValue).1
      = .error .illegalAssignment
    ∧ (sampleCRegisterFileAfter.store_circuit sampleStack (.locator 1) sampleCValue).1
      = .error .illegalAssignment := by
  obtain ⟨h1, h2, h3, h4, h5, g1, g2, g3, g4, g5⟩ :=
    c1_store_single_assignment sampleRegisterFile sampleCRegisterFile sampleStack
      sampleValue sampleCValue
  exact ⟨h5 (.locator 1) sampleRegisterFileAfter sampleStack sampleValue rfl,
    g5 (.locator 1) sampleCRegisterFileAfter sampleStack sampleCValue rfl⟩

/-- C2: a successful store of v into a register with no member path,
immediately followed by a load of an operand referencing that register with
no member path, returns exactly v. -/
theorem c2_store_load_round_trip :
    ∀ (regs : RegisterFile) (stack stack2 : Stack) (i : Nat) (v : Value) (out : RegisterFile),
      regs.store stack (.locator i) v = (.ok (), out)
      → out.load stack2 (.register (.locator i)) = .ok v := by
  intro regs stack stack2 i v out h
  obtain ⟨j, ty, hr, hle, hc, ht, hm, hout⟩ := store_ok_inv regs stack (.locator i) v out h
  have hij : i = j := by
    injection hr
  subst hij
  subst hout
  have hlen : i < regs.contents.length := (List.getElem?_eq_some.mp hc).1
  simp [RegisterFile.load, List.getElem?_set, hlen]

/-- C2 witness: storing the sample value into register 1 of the concrete
frame and loading it back returns the sample value. -/
theorem c2_store_load_round_trip_witness :
    sampleRegisterFileAfter.load sampleStack (.register (.locator 1)) = .ok sampleValue :=
  c2_store_load_round_trip sampleRegisterFile sampleStack sampleStack 1 sampleValue
    sampleRegisterFileAfter rfl

/-- C6: a literal operand loads as the literal wrapped into a value; a
register operand whose base register is Unassigned fails, with or without a
member path; a member path over an Assigned register is resolved by
projection into the stored value; and projection fails — rather than
returning a default — when the base value is not a composite or when the
named component does not exist in the struct or record. -/
theorem c6_load_behavior :
    ∀ (regs : RegisterFile) (stack : Stack),
      (∀ l : Literal, regs.load stack (.literal l) = .ok (.plaintext (.literal l)))
      ∧ (∀ i : Nat, regs.contents[i]? = some none →
        regs.load stack (.register (.locator i)) = .error .illegalAccess
          ∧ ∀ path, regs.load stack (.register (.access i path)) = .error .illegalAccess)
      ∧ (∀ (i : Nat) (v : Value) (path : List String), regs.contents[i]? = some (some v) →
        regs.load stack (.register (.access i path)) = Value.project v path)
      ∧ (∀ (l : Literal) (id : String) (rest : List String),
        Value.project (.plaintext (.literal l)) (id :: rest) = .error .notFound)
      ∧ (∀ (fields : List (String × Plaintext)) (id : String) (rest : List String),
        lookupKey fields id = none →
        Value.project (.plaintext (.struct fields)) (id :: rest) = .error .notFound)
      ∧ (∀ (owner : Nat) (fields : List (String × Entry)) (id : String) (rest : List String),
        lookupKey fields id = none →
        Value.project (.record owner fields) (id :: rest) = .error .notFound) := by
  intro regs stack
  refine ⟨fun l => rfl, ?_, ?_, ?_, ?_, ?_⟩
  · intro i hc
    exact ⟨by simp [RegisterFile.load, hc], fun path => by simp [RegisterFile.load, hc]⟩
  · intro i v path hc
    simp [RegisterFile.load, hc]
  · intro l id rest
    simp [Value.project, Plaintext.project, Plaintext.getMember, Except.map]
  · intro fields id rest hk
    simp [Value.project, Plaintext.project, Plaintext.getMember, hk, Except.map]
  · intro owner fields id rest hk
    simp [Value.project, hk]

/-- C6 witness: loading through a member path naming a field absent from a
stored record fails with NotFound on a concrete frame. -/
theorem c6_load_behavior_witness :
    sampleRecordRegs.load sampleStack (.register (.access 0 ["missing"])) = .error .notFound := by
  obtain ⟨h1, h2, h3, h4, h5, h6⟩ := c6_load_behavior sampleRecordRegs sampleStack
  have hl := h3 0 (.record 5 [("amount", .privateEntry (.literal (.u64 3)))]) ["missing"] rfl
  rw [hl]
  exact h6 5 [("amount", .privateEntry (.literal (.u64 3)))] "missing" [] rfl

/-- C7: no error path performs a partial mutation.  A failed store, plain or
circuit, returns the frame unchanged — the target register stays Unassigned
and every other register keeps its value.  The load operations (and their
narrowing wrappers) take the frame immutably, so in this embedding they are
pure functions of the frame and cannot mutate any register on success or
failure. -/
theorem c7_no_partial_mutation :
    ∀ (regs : RegisterFile) (cregs : CRegisterFile) (stack : Stack) (r : Register)
      (v : Value) (cv : CValue) (e : Err),
      ((regs.store stack r v).1 = .error e → (regs.store stack r v).2 = regs)
      ∧ ((cregs.store_circuit stack r cv).1 = .error e →
          (cregs.store_circuit stack r cv).2 = cregs) := by
  intro regs cregs stack r v cv e
  constructor
  · intro h
    cases r with
    | access i path => rfl
    | locator i =>
      by_cases hin : i < regs.numInputs
      · simp [RegisterFile.store, hin]
      · cases hc : regs.contents[i]? with
        | none => simp [RegisterFile.store, hin, hc]
        | some o =>
          cases o with
          | some w => simp [RegisterFile.store, hin, hc]
          | none =>
            cases ht : regs.registerTypes[i]? with
            | none => simp [RegisterFile.store, hin, hc, ht]
            | some ty =>
              cases hm : stack.matchesRegisterType v ty with
              | error e2 => simp [RegisterFile.store, hin, hc, ht, hm]
              | ok u => simp [RegisterFile.store, hin, hc, ht, hm] at h
  · intro h
    cases r with
    | access i path => rfl
    | locator i =>
      by_cases hin : i < cregs.numInputs
      · simp [CRegisterFile.store_circuit, hin]
      · cases hc : cregs.contents[i]? with
        | none => simp [CRegisterFile.store_circuit, hin, hc]
        | some o =>
          cases o with
          | some w => simp [CRegisterFile.store_circuit, hin, hc]
          | none =>
            cases ht : cregs.registerTypes[i]? with
            | none => simp [CRegisterFile.store_circuit, hin, hc, ht]
            | some ty =>
              cases hm : stack.matchesRegisterTypeCircuit cv ty with
              | error e2 => simp [CRegisterFile.store_circuit, hin, hc, ht, hm]
              | ok u => simp [CRegisterFile.store_circuit, hin, hc, ht, hm] at h

/-- C7 witness: a store into a member-path lvalue fails and leaves the
concrete frame unchanged, in plain and circuit mode. -/
theorem c7_no_partial_mutation_witness :
    (sampleRegisterFile.store sampleStack (.access 0 ["x"]) sampleValue).2 = sampleRegisterFile
    ∧ (sampleCRegisterFile.store_circuit sampleStack (.access 0 ["x"]) sampleCValue).2
      = sampleCRegisterFile := by
  obtain ⟨h1, h2⟩ := c7_no_partial_mutation sampleRegisterFile sampleCRegisterFile sampleStack
    (.access 0 ["x"]) sampleValue sampleCValue Err.illegalAssignment
  exact ⟨h1 rfl, h2 rfl⟩

end SnarkVM
